import Mathlib

/-!
Verification of the `ConnectionFactory` in `src/connection-factory.ts` of
faktory_worker_node.

The factory is embedded shallowly.  Asynchronous effects (constructing the
connection, registering listeners, calling `open()`, calling the injected
`handshake`, sleeping, calling `close()`) are recorded in an explicit trace
of events, so that ordering and frame claims can be stated.  The outcome of
the external call `connection.open()` is supplied per invocation by an
environment value `Env`; the injected handshake function is stored on the
factory, as in the source, as a function from the connection and the
greeting to an `Except` outcome.
-/

/-- Errors thrown by `open()`, the handshake, or the transport.  Opaque to
the factory, which only re-raises them; modelled by an identifying code. -/
structure Err where
  code : Nat
deriving DecidableEq, Repr

/-- Modelled from the spec: the `Greeting` value produced by
`Connection.open()` (type imported from `./connection`, which is not part
of the sources).  The spec treats it as an opaque initial message consumed
by the handshake step, so it is modelled by an identifying code. -/
structure Greeting where
  raw : Nat
deriving DecidableEq, Repr

/-- The TypeScript `port : string | number` of the factory. -/
inductive Port
  | str (s : String)
  | num (n : Int)
deriving DecidableEq, Repr

/-- Modelled from the spec: `tlsOptions` is optional transport-security
configuration, opaque to this core and forwarded verbatim to the
`Connection` constructor; modelled by an optional identifying code. -/
abbrev TlsOptions : Type := Option Nat

/-- The error sink stored in `onConnectionError`.  The constructor installs
`console.error.bind(console)`; callers may replace it by their own handler,
identified here by a code. -/
inductive ErrSink
  | consoleError
  | custom (id : Nat)
deriving DecidableEq, Repr

/-- Event names a listener can be registered for on a `Connection`. -/
inductive EvName
  | error
  | close
deriving DecidableEq, Repr

/-- Modelled from the spec: a listener registered on a `Connection`
(`./connection` is not part of the sources).  `errorSink` is the factory's
`onConnectionError` sink, `removeAllOnClose` is the cleanup closure
`() => connection.removeAllListeners()` registered by `destroy`, and
`other` stands for any externally registered listener, which is opaque to
this core and leaves the connection state unchanged when it runs. -/
inductive Handler
  | errorSink (s : ErrSink)
  | removeAllOnClose
  | other (id : Nat)
deriving DecidableEq, Repr

/-- Modelled from the spec: the external `Connection` object
(`./connection` is not part of the sources).  Per the spec it carries an
open/closed liveness flag `connected`, and emits `"error"`/`"close"`
notifications to registered listeners, kept here as an ordered list. -/
structure Connection where
  host : String
  port : Port
  tlsOptions : TlsOptions
  connected : Bool
  listeners : List (EvName × Handler)
deriving DecidableEq, Repr

/-- Modelled from the spec: event registration on a `Connection`
(`connection.on(event, listener)`), appending the listener. -/
def Connection.on (c : Connection) (ev : EvName) (h : Handler) : Connection :=
  { c with listeners := c.listeners ++ [(ev, h)] }

/-- Modelled from the spec: `connection.removeAllListeners()` drops every
registered listener. -/
def Connection.removeAllListeners (c : Connection) : Connection :=
  { c with listeners := [] }

/-- Modelled from the spec: the state effect of one listener running.  The
cleanup closure registered by `destroy` removes all listeners; the error
sink and external listeners are observers that leave the connection
unchanged. -/
def Handler.apply : Handler → Connection → Connection
  | Handler.removeAllOnClose, c => c.removeAllListeners
  | Handler.errorSink _, c => c
  | Handler.other _, c => c

/-- Modelled from the spec: the connection emitting its `"close"`
notification runs, in registration order, every listener registered for
`"close"` (the list is snapshotted at emission time, as in Node). -/
def Connection.emitClose (c : Connection) : Connection :=
  ((c.listeners.filter (fun p => decide (p.1 = EvName.close))).map Prod.snd).foldl
    (fun acc h => h.apply acc) c

/-- Modelled from the spec: `connection.close()` is idempotent, releases
transport resources (clearing the liveness flag) and signals `"close"` to
the registered listeners; it does not throw. -/
def Connection.close (c : Connection) : Connection :=
  Connection.emitClose { c with connected := false }

/-- The `ConnectionFactory` state: `host`, `port`, `tlsOptions` and the
injected `handshake` are set at construction; `attempts` counts consecutive
failed creation attempts; `onConnectionError` is the per-connection error
sink.  The injected handshake is modelled by its outcome on the connection
and greeting it is called with. -/
structure ConnectionFactory where
  host : String
  port : Port
  handshake : Connection → Greeting → Except Err String
  tlsOptions : TlsOptions
  attempts : Int
  onConnectionError : ErrSink

/-- The constructor of `ConnectionFactory`: stores the options, starts
`attempts` at 0 and installs `console.error` as the error sink. -/
def ConnectionFactory.make (host : String) (port : Port)
    (handshake : Connection → Greeting → Except Err String)
    (tlsOptions : TlsOptions) : ConnectionFactory :=
  { host := host
    port := port
    handshake := handshake
    tlsOptions := tlsOptions
    attempts := 0
    onConnectionError := ErrSink.consoleError }

/-- One observable step the factory performs during an operation. -/
inductive Event
  | newConnection
  | onError
  | onClose
  | openCall
  | handshakeCall (g : Greeting)
  | sleep (ms : Int)
  | closeCall
deriving DecidableEq, Repr

/-- Whether an event is an I/O action (as opposed to local construction or
listener registration). -/
def Event.isIO : Event → Bool
  | Event.openCall => true
  | Event.handshakeCall _ => true
  | Event.sleep _ => true
  | Event.closeCall => true
  | _ => false

/-- The per-invocation environment of `create()`: the outcome of the
external call `connection.open()`, a greeting on success or a thrown
error. -/
structure Env where
  openResult : Except Err Greeting

/-- Result of one `create()` invocation: the trace of steps performed, the
factory state afterwards, and either the returned connection or the
re-raised error. -/
structure CreateResult where
  trace : List Event
  factory : ConnectionFactory
  result : Except Err Connection

/-- Result of one `destroy()` invocation. -/
structure DestroyResult where
  trace : List Event
  factory : ConnectionFactory
  conn : Connection

/-- Result of one `validate()` invocation. -/
structure ValidateResult where
  trace : List Event
  value : Bool
  factory : ConnectionFactory
  conn : Connection

/-- Modelled from the spec: `new Connection(port, host, tlsOptions)`
(`./connection` is not in the sources) produces an unopened connection with
no listeners. -/
def ConnectionFactory.newConn (f : ConnectionFactory) : Connection :=
  { host := f.host
    port := f.port
    tlsOptions := f.tlsOptions
    connected := false
    listeners := [] }

/-- The connection as it stands when the injected handshake is called: the
error sink has been registered and `open()` has succeeded, setting the
liveness flag. -/
def ConnectionFactory.openedConn (f : ConnectionFactory) : Connection :=
  { (f.newConn.on EvName.error (Handler.errorSink f.onConnectionError)) with
      connected := true }

/-- `ConnectionFactory.create`: builds a connection, registers the error
sink, awaits `open()` and the injected handshake; on success resets
`attempts` and returns the connection; on failure increments `attempts`,
sleeps `200 * min(attempts, 20)` and re-raises the error. -/
def ConnectionFactory.create (f : ConnectionFactory) (env : Env) : CreateResult :=
  match env.openResult with
  | Except.error e =>
      { trace := [Event.newConnection, Event.onError, Event.openCall,
                  Event.sleep (200 * min (f.attempts + 1) 20)]
        factory := { f with attempts := f.attempts + 1 }
        result := Except.error e }
  | Except.ok greeting =>
      match f.handshake f.openedConn greeting with
      | Except.error e =>
          { trace := [Event.newConnection, Event.onError, Event.openCall,
                      Event.handshakeCall greeting,
                      Event.sleep (200 * min (f.attempts + 1) 20)]
            factory := { f with attempts := f.attempts + 1 }
            result := Except.error e }
      | Except.ok _ =>
          { trace := [Event.newConnection, Event.onError, Event.openCall,
                      Event.handshakeCall greeting]
            factory := { f with attempts := 0 }
            result := Except.ok f.openedConn }

/-- `ConnectionFactory.destroy`: registers the listener-cleanup closure for
`"close"`, then initiates `close()` and returns its completion as its
own. -/
def ConnectionFactory.destroy (f : ConnectionFactory) (c : Connection) : DestroyResult :=
  { trace := [Event.onClose, Event.closeCall]
    factory := f
    conn := Connection.close (c.on EvName.close Handler.removeAllOnClose) }

/-- `ConnectionFactory.validate`: returns the connection's current liveness
flag; nothing else happens. -/
def ConnectionFactory.validate (f : ConnectionFactory) (c : Connection) : ValidateResult :=
  { trace := []
    value := c.connected
    factory := f
    conn := c }

/-- Whether an `Except` outcome is the error (rejection) case. -/
def isErr {α : Type} : Except Err α → Bool
  | Except.error _ => true
  | Except.ok _ => false

/-- Sequential `create()` invocations, threading the factory state. -/
def runCreates (f : ConnectionFactory) : List Env → ConnectionFactory
  | [] => f
  | env :: rest => runCreates (f.create env).factory rest

/-- The durations slept during a trace, in order. -/
def sleepsOf (tr : List Event) : List Int :=
  tr.filterMap (fun e =>
    match e with
    | Event.sleep n => some n
    | _ => none)

/-- The backoff delay the source computes from the post-increment
`attempts` value: `200 * Math.min(attempts, 20)`. -/
def backoffOf (attempts : Int) : Int :=
  200 * min attempts 20

/-- The number of consecutive failing `create()` calls at the tail of a
sequence of environments, judged against factory `f` (failure does not
depend on `attempts`): the counter climbs by one per failure and resets to
zero on success. -/
def trailingFails (f : ConnectionFactory) (envs : List Env) : Int :=
  envs.foldl (fun t e => if isErr (f.create e).result then t + 1 else 0) 0

/-- A sample host name for concrete instantiations. -/
def sampleHost : String := String.mk []

/-- A sample injected handshake function that always succeeds. -/
def sampleHandshake : Connection → Greeting → Except Err String :=
  fun _ _ => Except.ok (String.mk [])

/-- A sample injected handshake function that always throws. -/
def sampleBadHandshake : Connection → Greeting → Except Err String :=
  fun _ _ => Except.error { code := 7 }

/-- A sample factory, fresh from the constructor. -/
def sampleFactory : ConnectionFactory :=
  ConnectionFactory.make sampleHost (Port.num 7419) sampleHandshake none

/-- A sample factory whose injected handshake always throws. -/
def sampleBadFactory : ConnectionFactory :=
  ConnectionFactory.make sampleHost (Port.num 7419) sampleBadHandshake none

/-- An environment in which `connection.open()` throws. -/
def failEnv : Env := { openResult := Except.error { code := 1 } }

/-- An environment in which `connection.open()` yields a greeting. -/
def okEnv : Env := { openResult := Except.ok { raw := 3 } }

/-- A sample already-opened connection with an externally registered
listener, for exercising `destroy` and `validate`. -/
def sampleConn : Connection :=
  { host := sampleHost
    port := Port.num 7419
    tlsOptions := none
    connected := true
    listeners := [(EvName.error, Handler.errorSink ErrSink.consoleError),
                  (EvName.close, Handler.other 5)] }

/-! ## Helper lemmas about `create` -/

/-- The factory returned by `create` differs from the input factory only in
`attempts`: incremented on failure, reset to 0 on success. -/
theorem create_factory_eq (f : ConnectionFactory) (env : Env) :
    (f.create env).factory
      = { f with attempts := if isErr (f.create env).result then f.attempts + 1 else 0 } := by
  cases henv : env.openResult with
  | error e => simp [ConnectionFactory.create, henv, isErr]
  | ok g =>
      cases hh : f.handshake f.openedConn g with
      | error e => simp [ConnectionFactory.create, henv, hh, isErr]
      | ok s => simp [ConnectionFactory.create, henv, hh, isErr]

/-- The result of `create` does not depend on the `attempts` field. -/
theorem create_result_attempts (f : ConnectionFactory) (a : Int) (env : Env) :
    (ConnectionFactory.create { f with attempts := a } env).result = (f.create env).result := by
  have hconn : ConnectionFactory.openedConn { f with attempts := a } = f.openedConn := rfl
  cases henv : env.openResult with
  | error e => simp [ConnectionFactory.create, henv]
  | ok g =>
      cases hh : f.handshake f.openedConn g with
      | error e => simp [ConnectionFactory.create, henv, hconn, hh]
      | ok s => simp [ConnectionFactory.create, henv, hconn, hh]

/-- A failing `create` increments `attempts` by exactly one. -/
theorem create_fail_attempts (f : ConnectionFactory) (env : Env)
    (h : isErr (f.create env).result = true) :
    (f.create env).factory.attempts = f.attempts + 1 := by
  rw [create_factory_eq, h]
  simp

/-- A successful `create` resets `attempts` to zero. -/
theorem create_ok_attempts (f : ConnectionFactory) (env : Env)
    (h : isErr (f.create env).result = false) :
    (f.create env).factory.attempts = 0 := by
  rw [create_factory_eq, h]
  simp

/-- A failing `create` sleeps exactly once, for the backoff computed from
the incremented counter. -/
theorem create_fail_sleeps (f : ConnectionFactory) (env : Env)
    (h : isErr (f.create env).result = true) :
    sleepsOf (f.create env).trace = [backoffOf (f.attempts + 1)] := by
  cases henv : env.openResult with
  | error e => simp [ConnectionFactory.create, henv, sleepsOf, backoffOf]
  | ok g =>
      cases hh : f.handshake f.openedConn g with
      | error e => simp [ConnectionFactory.create, henv, hh, sleepsOf, backoffOf]
      | ok s => simp [ConnectionFactory.create, henv, hh, isErr] at h

/-- A successful `create` never sleeps. -/
theorem create_ok_sleeps (f : ConnectionFactory) (env : Env)
    (h : isErr (f.create env).result = false) :
    sleepsOf (f.create env).trace = [] := by
  cases henv : env.openResult with
  | error e => simp [ConnectionFactory.create, henv, isErr] at h
  | ok g =>
      cases hh : f.handshake f.openedConn g with
      | error e => simp [ConnectionFactory.create, henv, hh, isErr] at h
      | ok s => simp [ConnectionFactory.create, henv, hh, sleepsOf]

/-- Running further `create` calls leaves the per-call result unchanged:
only `attempts` evolves, and the result does not depend on it. -/
theorem runCreates_create_result (envs : List Env) :
    ∀ (f : ConnectionFactory) (env : Env),
      ((runCreates f envs).create env).result = (f.create env).result := by
  induction envs with
  | nil => intro f env; rfl
  | cons e rest ih =>
      intro f env
      show ((runCreates (f.create e).factory rest).create env).result = _
      rw [ih, create_factory_eq, create_result_attempts]

/-- After a straight run of failing `create` calls, `attempts` has grown by
the number of calls. -/
theorem runCreates_allFail (envs : List Env) :
    ∀ f : ConnectionFactory, (∀ e ∈ envs, isErr (f.create e).result = true) →
      (runCreates f envs).attempts = f.attempts + envs.length := by
  induction envs with
  | nil => intro f _; simp [runCreates]
  | cons env rest ih =>
      intro f h
      have hfail : isErr (f.create env).result = true := h env (by simp)
      have hrest : ∀ e ∈ rest, isErr ((f.create env).factory.create e).result = true := by
        intro e he
        rw [create_factory_eq, create_result_attempts]
        exact h e (by simp [he])
      show (runCreates (f.create env).factory rest).attempts = _
      rw [ih _ hrest, create_fail_attempts f env hfail]
      simp [List.length_cons]
      ring

/-- `attempts` after any run of `create` calls is the fold that adds one
per failure and resets to zero on success. -/
theorem runCreates_attempts_foldl (envs : List Env) :
    ∀ f : ConnectionFactory,
      (runCreates f envs).attempts
        = envs.foldl (fun t e => if isErr (f.create e).result then t + 1 else 0) f.attempts := by
  induction envs with
  | nil => intro f; rfl
  | cons env rest ih =>
      intro f
      show (runCreates (f.create env).factory rest).attempts = _
      rw [ih]
      have hfun : (fun (t : Int) (e : Env) =>
            if isErr (((f.create env).factory).create e).result then t + 1 else 0)
          = (fun (t : Int) (e : Env) => if isErr (f.create e).result then t + 1 else 0) := by
        funext t e
        rw [create_factory_eq, create_result_attempts]
      have hinit : (f.create env).factory.attempts
          = if isErr (f.create env).result then f.attempts + 1 else 0 := by
        rw [create_factory_eq]
      rw [hfun, hinit, List.foldl_cons]

/-! ## The claims -/

/-- Claim C1: for every sequence of N consecutive `create()` failures with
no intervening success (starting from a factory with no recorded failures),
the backoff delay slept before the Nth rejection is exactly
`min(N, 20) * 200` time units, and the factory's `attempts` counter after
the Nth failure equals N. -/
theorem claim_c1 (f : ConnectionFactory) (envs : List Env) (env : Env)
    (h0 : f.attempts = 0)
    (hfail : ∀ e ∈ envs, isErr (f.create e).result = true)
    (hlast : isErr (f.create env).result = true) :
    sleepsOf ((runCreates f envs).create env).trace
        = [200 * min ((envs.length : Int) + 1) 20]
    ∧ ((runCreates f envs).create env).factory.attempts = (envs.length : Int) + 1 := by
  have hrun : (runCreates f envs).attempts = (envs.length : Int) := by
    rw [runCreates_allFail envs f hfail, h0, zero_add]
  have hN : isErr ((runCreates f envs).create env).result = true := by
    rw [runCreates_create_result]
    exact hlast
  have h1 := create_fail_sleeps (runCreates f envs) env hN
  have h2 := create_fail_attempts (runCreates f envs) env hN
  rw [hrun] at h1 h2
  exact ⟨by rw [h1]; rfl, h2⟩

/-- Witness for C1: two `open()` failures followed by a third give a 600
time-unit backoff before the third rejection and an `attempts` of 3. -/
theorem claim_c1_witness :
    sleepsOf ((runCreates sampleFactory [failEnv, failEnv]).create failEnv).trace
        = [200 * min ((List.length [failEnv, failEnv] : Int) + 1) 20]
    ∧ ((runCreates sampleFactory [failEnv, failEnv]).create failEnv).factory.attempts
        = (List.length [failEnv, failEnv] : Int) + 1 := by
  exact claim_c1 sampleFactory [failEnv, failEnv] failEnv rfl
    (by intro e he; fin_cases he <;> rfl) rfl

/-- Claim C3: after any successful `create()`, the factory's `attempts`
counter equals 0 no matter how many failures preceded it. -/
theorem claim_c3 (f : ConnectionFactory) (env : Env) (c : Connection)
    (h : (f.create env).result = Except.ok c) :
    (f.create env).factory.attempts = 0 := by
  apply create_ok_attempts
  rw [h]
  rfl

/-- Witness for C3: a factory with five recorded failures succeeds and its
counter drops to 0. -/
theorem claim_c3_witness :
    (ConnectionFactory.create { sampleFactory with attempts := 5 } okEnv).factory.attempts = 0 :=
  claim_c3 { sampleFactory with attempts := 5 } okEnv
    (ConnectionFactory.openedConn { sampleFactory with attempts := 5 }) rfl

/-- Claim C7: the `attempts` counter is 0 at construction, is incremented
by exactly 1 on each failed `create()`, is reset to 0 on each successful
`create()`, never goes negative, is the sole input to the backoff delay
(the slept delay is `backoffOf` of the updated counter), and over any run
of calls equals the number of consecutive failures since the last success
or construction. -/
theorem claim_c7 :
    (∀ (host : String) (port : Port)
        (hs : Connection → Greeting → Except Err String) (tls : TlsOptions),
        (ConnectionFactory.make host port hs tls).attempts = 0)
    ∧ (∀ (f : ConnectionFactory) (env : Env),
        (isErr (f.create env).result = true →
          (f.create env).factory.attempts = f.attempts + 1)
        ∧ (isErr (f.create env).result = false →
          (f.create env).factory.attempts = 0)
        ∧ (0 ≤ f.attempts → 0 ≤ (f.create env).factory.attempts)
        ∧ sleepsOf (f.create env).trace
            = (if isErr (f.create env).result = true
                then [backoffOf (f.create env).factory.attempts] else []))
    ∧ (∀ (f : ConnectionFactory) (envs : List Env), f.attempts = 0 →
        (runCreates f envs).attempts = trailingFails f envs) := by
  refine ⟨fun _ _ _ _ => rfl,
          fun f env => ⟨create_fail_attempts f env, create_ok_attempts f env, ?_, ?_⟩,
          ?_⟩
  · intro h0
    cases hb : isErr (f.create env).result
    · rw [create_ok_attempts f env hb]
    · rw [create_fail_attempts f env hb]
      omega
  · cases hb : isErr (f.create env).result
    · rw [create_ok_sleeps f env hb]
      simp [hb]
    · rw [create_fail_sleeps f env hb, create_fail_attempts f env hb]
      simp [hb]
  · intro f envs h0
    rw [runCreates_attempts_foldl, h0]
    rfl

/-- Witness for C7: the constructor, a failing call, a succeeding call, the
nonnegativity step and a mixed run, all at concrete inputs. -/
theorem claim_c7_witness :
    (ConnectionFactory.make sampleHost (Port.num 7419) sampleHandshake none).attempts = 0
    ∧ (sampleBadFactory.create okEnv).factory.attempts = sampleBadFactory.attempts + 1
    ∧ (sampleFactory.create okEnv).factory.attempts = 0
    ∧ 0 ≤ (sampleFactory.create failEnv).factory.attempts
    ∧ (runCreates sampleFactory [failEnv, okEnv, failEnv]).attempts
        = trailingFails sampleFactory [failEnv, okEnv, failEnv] :=
  ⟨claim_c7.1 sampleHost (Port.num 7419) sampleHandshake none,
   (claim_c7.2.1 sampleBadFactory okEnv).1 rfl,
   (claim_c7.2.1 sampleFactory okEnv).2.1 rfl,
   (claim_c7.2.1 sampleFactory failEnv).2.2.1 (by decide),
   claim_c7.2.2 sampleFactory [failEnv, okEnv, failEnv] rfl⟩

/-- Claim C2: `create()` hands a connection back only when both `open()`
and the injected `handshake` on that very connection completed
successfully, and the handshake call is in the trace. -/
theorem claim_c2 (f : ConnectionFactory) (env : Env) (c : Connection)
    (h : (f.create env).result = Except.ok c) :
    ∃ g s, env.openResult = Except.ok g
      ∧ f.handshake c g = Except.ok s
      ∧ Event.handshakeCall g ∈ (f.create env).trace := by
  cases henv : env.openResult with
  | error e => simp [ConnectionFactory.create, henv] at h
  | ok g =>
      cases hh : f.handshake f.openedConn g with
      | error e => simp [ConnectionFactory.create, henv, hh] at h
      | ok s =>
          simp [ConnectionFactory.create, henv, hh] at h
          subst h
          exact ⟨g, s, rfl, hh, by simp [ConnectionFactory.create, henv, hh]⟩

/-- Witness for C2: a succeeding factory returns its opened connection and
the handshake call with the open greeting is on record. -/
theorem claim_c2_witness :
    ∃ g s, okEnv.openResult = Except.ok g
      ∧ sampleFactory.handshake sampleFactory.openedConn g = Except.ok s
      ∧ Event.handshakeCall g ∈ (sampleFactory.create okEnv).trace :=
  claim_c2 sampleFactory okEnv sampleFactory.openedConn rfl

/-- Claim C4: `create()` rejects exactly when `open()` or the injected
handshake throws, re-raises that very error, and on failure increments
`attempts` and finishes with the backoff sleep before rejecting. -/
theorem claim_c4 (f : ConnectionFactory) (env : Env) (e : Err) :
    ((f.create env).result = Except.error e ↔
      env.openResult = Except.error e
      ∨ ∃ g, env.openResult = Except.ok g ∧ f.handshake f.openedConn g = Except.error e)
    ∧ ((f.create env).result = Except.error e →
        (f.create env).factory.attempts = f.attempts + 1
        ∧ (f.create env).trace.getLast? = some (Event.sleep (backoffOf (f.attempts + 1)))) := by
  cases henv : env.openResult with
  | error e2 =>
      constructor
      · simp [ConnectionFactory.create, henv, eq_comm]
      · intro h
        constructor
        · exact create_fail_attempts f env (by rw [h]; rfl)
        · simp [ConnectionFactory.create, henv, backoffOf]
  | ok g =>
      cases hh : f.handshake f.openedConn g with
      | error e2 =>
          constructor
          · simp [ConnectionFactory.create, henv, hh, eq_comm]
          · intro h
            constructor
            · exact create_fail_attempts f env (by rw [h]; rfl)
            · simp [ConnectionFactory.create, henv, hh, backoffOf]
      | ok s =>
          constructor
          · simp [ConnectionFactory.create, henv, hh]
          · intro h
            simp [ConnectionFactory.create, henv, hh] at h

/-- Witness for C4: a handshake that throws error 7 makes `create` reject
with error 7, bump `attempts` from 0 to 1 and end in a 200 time-unit
sleep. -/
theorem claim_c4_witness :
    ((sampleBadFactory.create okEnv).result = Except.error { code := 7 }
      ↔ okEnv.openResult = Except.error { code := 7 }
        ∨ ∃ g, okEnv.openResult = Except.ok g
            ∧ sampleBadFactory.handshake sampleBadFactory.openedConn g
                = Except.error { code := 7 })
    ∧ ((sampleBadFactory.create okEnv).factory.attempts = sampleBadFactory.attempts + 1
        ∧ (sampleBadFactory.create okEnv).trace.getLast?
            = some (Event.sleep (backoffOf (sampleBadFactory.attempts + 1)))) :=
  ⟨(claim_c4 sampleBadFactory okEnv { code := 7 }).1,
   (claim_c4 sampleBadFactory okEnv { code := 7 }).2 rfl⟩

/-- Claim C8: in every `create()` invocation the error sink is registered
on the connection strictly before any I/O step, and in particular before
the `open()` call. -/
theorem claim_c8 (f : ConnectionFactory) (env : Env) :
    ∃ pre post, (f.create env).trace = pre ++ Event.onError :: post
      ∧ (∀ ev ∈ pre, Event.isIO ev = false)
      ∧ Event.openCall ∈ post := by
  cases henv : env.openResult with
  | error e =>
      refine ⟨[Event.newConnection],
              [Event.openCall, Event.sleep (200 * min (f.attempts + 1) 20)], ?_, ?_, ?_⟩
      · simp [ConnectionFactory.create, henv]
      · intro ev hev
        simp at hev
        subst hev
        rfl
      · simp
  | ok g =>
      cases hh : f.handshake f.openedConn g with
      | error e =>
          refine ⟨[Event.newConnection],
                  [Event.openCall, Event.handshakeCall g,
                   Event.sleep (200 * min (f.attempts + 1) 20)], ?_, ?_, ?_⟩
          · simp [ConnectionFactory.create, henv, hh]
          · intro ev hev
            simp at hev
            subst hev
            rfl
          · simp
      | ok s =>
          refine ⟨[Event.newConnection],
                  [Event.openCall, Event.handshakeCall g], ?_, ?_, ?_⟩
          · simp [ConnectionFactory.create, henv, hh]
          · intro ev hev
            simp at hev
            subst hev
            rfl
          · simp

/-- Claim C9: a failing `create()` never calls `close()` on the attempted
connection (nor registers the close-cleanup listener); the caller sees only
the rejection. -/
theorem claim_c9 (f : ConnectionFactory) (env : Env) (e : Err)
    (h : (f.create env).result = Except.error e) :
    Event.closeCall ∉ (f.create env).trace ∧ Event.onClose ∉ (f.create env).trace
    ∧ (f.create env).result = Except.error e := by
  refine ⟨?_, ?_, h⟩ <;>
    · cases henv : env.openResult with
      | error e2 => simp [ConnectionFactory.create, henv]
      | ok g =>
          cases hh : f.handshake f.openedConn g with
          | error e2 => simp [ConnectionFactory.create, henv, hh]
          | ok s => simp [ConnectionFactory.create, henv, hh]

/-- Witness for C9: a failing `open()` yields a rejection whose trace has
no `close()` call. -/
theorem claim_c9_witness :
    Event.closeCall ∉ (sampleFactory.create failEnv).trace
    ∧ Event.onClose ∉ (sampleFactory.create failEnv).trace
    ∧ (sampleFactory.create failEnv).result = Except.error { code := 1 } :=
  claim_c9 sampleFactory failEnv { code := 1 } rfl

/-- Claim C5: `validate(c)` returns exactly the connection's current
liveness flag, performs no I/O (empty trace) and leaves both the
connection and the whole factory state unchanged. -/
theorem claim_c5 (f : ConnectionFactory) (c : Connection) :
    (f.validate c).value = c.connected
    ∧ (f.validate c).factory = f
    ∧ (f.validate c).conn = c
    ∧ (f.validate c).trace = [] :=
  ⟨rfl, rfl, rfl, rfl⟩

/-- Claim C6: `destroy(c)` registers the cleanup listener before initiating
`close()`, invokes `close()` exactly once, returns the completion of
`close()` as its own, and once the connection signals close all of its
listeners are removed; nothing in this layer throws on an already-closed
connection. -/
theorem claim_c6 (f : ConnectionFactory) (c : Connection) :
    (f.destroy c).trace = [Event.onClose, Event.closeCall]
    ∧ (f.destroy c).trace.count Event.closeCall = 1
    ∧ (f.destroy c).conn = Connection.close (c.on EvName.close Handler.removeAllOnClose)
    ∧ (f.destroy c).conn.listeners = [] := by
  refine ⟨rfl, rfl, rfl, ?_⟩
  show (Connection.close (c.on EvName.close Handler.removeAllOnClose)).listeners = []
  simp only [Connection.close, Connection.emitClose, Connection.on]
  rw [List.filter_append, List.map_append, List.foldl_append]
  simp [Handler.apply, Connection.removeAllListeners]

/-- Claim C10: none of the three pool-facing operations changes the factory
fields `host`, `port`, `tlsOptions`, `handshake` or `onConnectionError`;
only `attempts` is ever mutated, and only by `create`. -/
theorem claim_c10 (f : ConnectionFactory) (env : Env) (c : Connection) :
    ((f.create env).factory.host = f.host
      ∧ (f.create env).factory.port = f.port
      ∧ (f.create env).factory.tlsOptions = f.tlsOptions
      ∧ (f.create env).factory.handshake = f.handshake
      ∧ (f.create env).factory.onConnectionError = f.onConnectionError)
    ∧ (f.destroy c).factory = f
    ∧ (f.validate c).factory = f := by
  refine ⟨⟨?_, ?_, ?_, ?_, ?_⟩, rfl, rfl⟩ <;> rw [create_factory_eq]
